import Mathlib

/-!
Shallow embedding of the ai-document-processor backend (src/backend) and a
verification of its specified properties.

The embedding covers:
* the post-extraction classifier and validator of
  `document_processor.py` (`_categorize_document`, `_calculate_confidence`,
  `_validate_data`), together with the response-parsing policy of
  `_extract_with_vision` and the top-level `process_document` pipeline;
* the document lifecycle of `process.py` (`process_document_task`,
  the `process_document` start endpoint, `get_processing_status`);
* the upload record creation of `upload.py` and the statistics
  aggregation of `documents.py` (`get_statistics`) together with the
  field declarations of the `ProcessingStatistics` response schema of
  `schemas.py`.

Python dictionaries produced by `json.loads` and consumed through
`dict.get` are embedded as structures whose components are `Option`
values: `none` models an absent key.  Numeric JSON values are embedded
as rationals.  Machine floating point is not modelled; arithmetic is
exact.
-/

namespace DocProc

/-! ## Extraction result data model

The shape produced by `json.loads` on the vision-model reply, as read by
`DocumentProcessor` in `document_processor.py`.  Each key that the code
may find missing is an `Option`. -/

/-- One element of the `"fields"` list of an extraction result: a dict
with keys `field_name`, `value`, `confidence`, `data_type`, any of which
may be absent.  Mirrors the shape consumed via `f.get(...)` in
`document_processor.py`. -/
structure ExtractedFieldJ where
  field_name : Option String := none
  value : Option String := none
  confidence : Option ℚ := none
  data_type : Option String := none
deriving DecidableEq

/-- One element of the `"line_items"` list of an extraction result. -/
structure LineItemJ where
  description : Option String := none
  quantity : Option ℚ := none
  unit_price : Option ℚ := none
  amount : Option ℚ := none
  confidence : Option ℚ := none
deriving DecidableEq

/-- The `"metadata"` object of an extraction result. -/
structure MetadataJ where
  has_logo : Option Bool := none
  has_signature : Option Bool := none
  quality_score : Option ℚ := none
  language : Option String := none
deriving DecidableEq

/-- The parsed JSON reply of the vision model (the `extracted_data`
dict in `document_processor.py`), with the keys of the prompted schema;
each `none` models an absent key. -/
structure ExtractionResult where
  document_type : Option String := none
  confidence_score : Option ℚ := none
  fields : Option (List ExtractedFieldJ) := none
  line_items : Option (List LineItemJ) := none
  raw_text : Option String := none
  metadata : Option MetadataJ := none
deriving DecidableEq

/-- Python truthiness of the extraction-result dict over the modelled
keys: `bool(d)` for a dict is `False` exactly when the dict is empty. -/
def ExtractionResult.isTruthy (er : ExtractionResult) : Bool :=
  er.document_type.isSome || er.confidence_score.isSome || er.fields.isSome ||
    er.line_items.isSome || er.raw_text.isSome || er.metadata.isSome

/-- Default of `settings.CONFIDENCE_THRESHOLD` in `config.py`. -/
def defaultConfidenceThreshold : ℚ := mkRat 7 10

/-- ASCII lowercasing of one character, the effect of Python
`str.lower` on the ASCII field names the code handles. -/
def charToLower (c : Char) : Char :=
  if 65 ≤ c.toNat ∧ c.toNat ≤ 90 then Char.ofNat (c.toNat + 32) else c

/-- Python `str.lower()`. -/
def strToLower (s : String) : String := ⟨s.data.map charToLower⟩

/-- Python `sep.join(parts)`. -/
def joinWith (sep : String) : List String → String
  | [] => ""
  | [x] => x
  | x :: xs => x ++ sep ++ joinWith sep xs

/-! ## Classifier and validator (`document_processor.py`) -/

/-- Boolean substring containment on char lists; `containsSub h n` is
true when `n` occurs contiguously inside `h`.  Embeds the Python
operator `needle in haystack` for strings; the empty needle is contained
in everything, as in Python. -/
def containsSub : List Char → List Char → Bool
  | hay, needle =>
    needle.isPrefixOf hay ||
      match hay with
      | [] => false
      | _ :: t => containsSub t needle

/-- String form of `containsSub`: the Python expression
`needle in hay`. -/
def strContains (hay needle : String) : Bool :=
  containsSub hay.data needle.data

/-- The lowercased field names of an extraction result, in list order:
`[f.get("field_name", "").lower() for f in extracted_data.get("fields", [])]`. -/
def fieldNamesLower (er : ExtractionResult) : List String :=
  (er.fields.getD []).map (fun f => strToLower (f.field_name.getD ""))

/-- The space-joined lowercased field names:
`" ".join(field_names)` in `_categorize_document`. -/
def joinedFieldNames (er : ExtractionResult) : String :=
  joinWith " " (fieldNamesLower er)

/-- Embedding of `DocumentProcessor._categorize_document`
(document_processor.py lines 224-251): return the `document_type` value
verbatim when the key is present, otherwise keyword-match over the
space-joined lowercased field names, first match wins. -/
def categorizeDocument (er : ExtractionResult) : String :=
  match er.document_type with
  | some t => t
  | none =>
    let joined := joinedFieldNames er
    if ["invoice", "inv no", "invoice number"].any (fun t => strContains joined t) then
      "invoice"
    else if ["receipt", "transaction"].any (fun t => strContains joined t) then
      "receipt"
    else if ["purchase order", "po number"].any (fun t => strContains joined t) then
      "purchase_order"
    else if ["bill", "billing"].any (fun t => strContains joined t) then
      "bill"
    else
      "other"

/-- Embedding of `DocumentProcessor._calculate_confidence`
(document_processor.py lines 253-272): use the aggregate
`confidence_score` when the key is present, otherwise average the field
confidences with `0.5` for a missing confidence, and `0.5` when there
are no fields. -/
def calculateConfidence (er : ExtractionResult) : ℚ :=
  match er.confidence_score with
  | some c => c
  | none =>
    let fields := er.fields.getD []
    if fields.isEmpty then 1 / 2
    else
      let confidences := fields.map (fun f => f.confidence.getD (1 / 2))
      if confidences.length ≠ 0 then confidences.sum / confidences.length
      else 1 / 2

/-- A validation finding, the dict
`{"field": ..., "error": ..., "severity": ...}` appended by
`_validate_data`. -/
structure Finding where
  field : String
  error : String
  severity : String
deriving DecidableEq

/-- Sequence a list of options: `some` of the list of values when every
element is present, `none` as soon as one is missing. -/
def sequenceOptions : List (Option String) → Option (List String)
  | [] => some []
  | none :: _ => none
  | some s :: t => (sequenceOptions t).map (fun l => s :: l)

/-- The type-dependent part of `DocumentProcessor._validate_data`
(document_processor.py lines 294-310): for types invoice, receipt,
bill, an `error` finding when no lowercased field name is a total
keyword and a `warning` finding when none is a date keyword. -/
def typeFindings (fields : List ExtractedFieldJ) (document_type : String) :
    List Finding :=
  let fieldDictKeys := fields.map (fun f => strToLower (f.field_name.getD ""))
  if ["invoice", "receipt", "bill"].contains document_type then
    (if ["total", "amount", "total amount", "grand total"].any
        (fun k => fieldDictKeys.contains k) then []
     else [⟨"total", "Total amount not found", "error"⟩])
    ++
    (if ["date", "invoice date", "receipt date"].any
        (fun k => fieldDictKeys.contains k) then []
     else [⟨"date", "Date not found", "warning"⟩])
  else []

/-- Embedding of `DocumentProcessor._validate_data`
(document_processor.py lines 274-325): the type-dependent findings of
`typeFindings` followed by the low-confidence warning.  The result is
`none` exactly when the Python code raises: `", ".join` is applied to
the list of raw `f.get("field_name")` values of the below-threshold
fields, so a below-threshold field whose `field_name` key is absent
makes `join` raise a `TypeError` (that line uses `f.get("field_name")`
with no default, unlike the `f.get("field_name", "")` of the other
uses). -/
def validateData (er : ExtractionResult) (document_type : String) (threshold : ℚ) :
    Option (List Finding) :=
  let fields := er.fields.getD []
  let lowConfidenceFields : List (Option String) :=
    (fields.filter (fun f => f.confidence.getD 1 < threshold)).map
      (fun f => f.field_name)
  match lowConfidenceFields with
  | [] => some (typeFindings fields document_type)
  | l =>
    match sequenceOptions l with
    | none => none
    | some names =>
      some (typeFindings fields document_type ++
        [⟨"confidence", "Low confidence in fields: " ++ joinWith ", " names,
          "warning"⟩])

/-! ## Vision reply parsing (`_extract_with_vision`) -/

/-- Drop the first `n` characters: Python `content[n:]`. -/
def strDrop (s : String) (n : ℕ) : String := ⟨s.data.drop n⟩

/-- Drop the last `n` characters: Python `content[:-n]`. -/
def strDropRight (s : String) (n : ℕ) : String := ⟨s.data.take (s.data.length - n)⟩

/-- Python `str.startswith`. -/
def strStartsWith (s p : String) : Bool := p.data.isPrefixOf s.data

/-- Python `str.endswith`. -/
def strEndsWith (s p : String) : Bool := p.data.reverse.isPrefixOf s.data.reverse

/-- Python `str.strip()`: remove leading and trailing whitespace. -/
def strStrip (s : String) : String :=
  ⟨((s.data.dropWhile Char.isWhitespace).reverse.dropWhile Char.isWhitespace).reverse⟩

/-- The fence-stripping of `_extract_with_vision`
(document_processor.py lines 208-214): remove a leading three-backtick
json delimiter, then a leading bare three-backtick delimiter, then a
trailing three-backtick delimiter. -/
def stripCodeFences (content : String) : String :=
  let c1 := if strStartsWith content "```json" then strDrop content 7 else content
  let c2 := if strStartsWith c1 "```" then strDrop c1 3 else c1
  if strEndsWith c2 "```" then strDropRight c2 3 else c2

/-- Failure of the reply parsing step: `json.loads` raised
(`json.JSONDecodeError`), the failure the specification names
`ExtractionFormatError`. -/
inductive VisionParseError where
  | jsonDecodeError
deriving DecidableEq

/-- Embedding of the parsing tail of `_extract_with_vision`
(document_processor.py lines 206-218): strip code fences, strip
whitespace, then parse.  `loads` is the external `json.loads`
collaborator, returning `none` when the text is not valid JSON; the
exception it raises in that case is re-raised by the method, which the
embedding reports as `VisionParseError.jsonDecodeError`. -/
def parseVisionContent {α : Type} (loads : String → Option α) (content : String) :
    Except VisionParseError α :=
  match loads (strStrip (stripCodeFences content)) with
  | some j => Except.ok j
  | none => Except.error VisionParseError.jsonDecodeError

/-! ## Processor pipeline (`DocumentProcessor.process_document`) -/

/-- The success dict returned by `DocumentProcessor.process_document`. -/
structure ProcSuccess where
  document_type : String
  extracted_data : ExtractionResult
  confidence_score : ℚ
  processing_time : ℚ
  validation_errors : List Finding
deriving DecidableEq

/-- Result dict of `DocumentProcessor.process_document`: either the
success shape or the failure shape `{"success": False, "error": ...}`. -/
inductive ProcResult where
  | success (r : ProcSuccess)
  | failure (error : String) (processing_time : ℚ)
deriving DecidableEq

/-- Embedding of `DocumentProcessor.process_document`
(document_processor.py lines 32-82).  `ext` is the combined outcome of
`_prepare_image` and `_extract_with_vision` (the two fallible external
steps): `Except.error e` models an exception with message `e`, which the
blanket `except` turns into the failure dict.  A `TypeError` raised
inside `_validate_data` (see `validateData`) is likewise caught by the
same blanket `except`. -/
def processDocumentRun (ext : Except String ExtractionResult)
    (ptime : ℚ) (threshold : ℚ) : ProcResult :=
  match ext with
  | Except.error e => ProcResult.failure e ptime
  | Except.ok er =>
    let dt := categorizeDocument er
    let conf := calculateConfidence er
    match validateData er dt threshold with
    | none =>
      ProcResult.failure "sequence item 0: expected str instance, NoneType found" ptime
    | some verrs => ProcResult.success ⟨dt, er, conf, ptime, verrs⟩

/-! ## Persisted document rows (`database.py`) -/

/-- A row of the `documents` table (`database.py` class `Document`).
The DB-managed `updated_at` column (`onupdate`) is not modelled; all
other columns relevant to the lifecycle are present.  Timestamps are
abstract ticks. -/
structure Doc where
  filename : String
  original_filename : String
  file_path : String
  file_size : ℕ
  file_type : String
  status : String
  document_type : Option String
  confidence_score : Option ℚ
  processing_time : Option ℚ
  extracted_data : Option ExtractionResult
  validation_errors : Option (List Finding)
  created_at : ℕ
  processed_at : Option ℕ
  exported : String
  export_path : Option String
  error_message : Option String
  retry_count : ℕ
deriving DecidableEq

/-- The document row created by `upload_document` (upload.py lines
67-75) together with the column defaults of `database.py`: status
`pending`, no extraction outputs, `retry_count` 0. -/
def uploadedDocument (filename original_filename file_path : String)
    (file_size : ℕ) (extension : String) (now : ℕ) : Doc :=
  { filename := filename
    original_filename := original_filename
    file_path := file_path
    file_size := file_size
    file_type := if strToLower extension = ".pdf" then "pdf" else "image"
    status := "pending"
    document_type := none
    confidence_score := none
    processing_time := none
    extracted_data := none
    validation_errors := none
    created_at := now
    processed_at := none
    exported := "false"
    export_path := none
    error_message := none
    retry_count := 0 }

/-- A `processing_logs` row (event type and message; the `details`
mapping is omitted). -/
structure LogEntry where
  event_type : String
  message : String
deriving DecidableEq

/-! ## Background task (`process_document_task`) -/

/-- Environment of one background task run, after the task has set the
status to `processing` and committed: either the awaited
`document_processor.process_document` call ran to a result dict (with
the external-step outcome, elapsed time and configured threshold that
determine it), or some awaited call inside the task body raised an
unexpected exception with message `e` (for example a database error),
which is the `except Exception` path of process.py lines 92-105. -/
inductive TaskEnv where
  | ran (ext : Except String ExtractionResult) (ptime : ℚ) (threshold : ℚ)
  | raised (e : String)

/-- Embedding of the result-handling part of `process_document_task`
(process.py lines 44-105), applied to a document whose status the task
has already set to `processing`.  Returns the updated row and the log
entries added.  On the failure dict: status `failed`, `error_message`,
`retry_count + 1`, an `error` log entry.  On the exception path: status
`failed` and `error_message` only — no retry increment and no log
entry. -/
def applyProcOutcome (d : Doc) (env : TaskEnv) (now : ℕ) : Doc × List LogEntry :=
  match env with
  | TaskEnv.ran ext ptime threshold =>
    match processDocumentRun ext ptime threshold with
    | ProcResult.success r =>
      ({ d with
          status := "completed"
          document_type := some r.document_type
          extracted_data := some r.extracted_data
          confidence_score := some r.confidence_score
          processing_time := some r.processing_time
          validation_errors := some r.validation_errors
          processed_at := some now },
       [⟨"extraction", "Document processed successfully"⟩])
    | ProcResult.failure e _ =>
      ({ d with
          status := "failed"
          error_message := some e
          retry_count := d.retry_count + 1 },
       [⟨"error", "Processing failed: " ++ e⟩])
  | TaskEnv.raised e =>
    ({ d with status := "failed", error_message := some e }, [])

/-- The whole of `process_document_task` for an existing document:
set status to `processing` (lines 34-36), then handle the outcome. -/
def processDocumentTask (d : Doc) (env : TaskEnv) (now : ℕ) : Doc × List LogEntry :=
  applyProcOutcome { d with status := "processing" } env now

/-! ## HTTP endpoints (`process.py`) -/

/-- A structured failure response: `HTTPException(status_code, detail)`. -/
inductive ApiError where
  | httpError (status_code : ℕ) (detail : String)
deriving DecidableEq

/-- The `ProcessDocumentResponse` schema of `schemas.py`. -/
structure ProcessResponse where
  document_id : ℕ
  status : String
  document_type : Option String
  extracted_data : Option ExtractionResult
  confidence_score : Option ℚ
  processing_time : Option ℚ
  validation_errors : Option (List Finding)
  message : String
deriving DecidableEq

instance {ε α : Type} [DecidableEq ε] [DecidableEq α] : DecidableEq (Except ε α) :=
  fun a b =>
    match a, b with
    | Except.error e, Except.error f => decidable_of_iff (e = f) (by simp)
    | Except.error _, Except.ok _ => Decidable.isFalse (by simp)
    | Except.ok _, Except.error _ => Decidable.isFalse (by simp)
    | Except.ok x, Except.ok y => decidable_of_iff (x = y) (by simp)

/-- Outcome of the start-processing endpoint: the HTTP result, the
stored row after the call, and whether a background task was added. -/
structure StartOutcome where
  result : Except ApiError ProcessResponse
  store : Option Doc
  taskLaunched : Bool
deriving DecidableEq

/-- Embedding of the `process_document` endpoint (process.py lines
108-162): 404 when the document does not exist, 400 when its status is
`processing`, otherwise add the background task and return the started
response.  The endpoint itself writes nothing, so the stored row is
returned unchanged in every branch. -/
def processDocumentEndpoint (docOpt : Option Doc) (document_id : ℕ) : StartOutcome :=
  match docOpt with
  | none =>
    ⟨Except.error (ApiError.httpError 404
        ("Document with ID " ++ toString document_id ++ " not found")),
      none, false⟩
  | some d =>
    if d.status = "processing" then
      ⟨Except.error (ApiError.httpError 400 "Document is already being processed"),
        some d, false⟩
    else
      ⟨Except.ok
        { document_id := document_id
          status := "processing"
          document_type := none
          extracted_data := none
          confidence_score := none
          processing_time := some 0
          validation_errors := none
          message := "Document processing started. Check status for results." },
        some d, true⟩

/-- Embedding of the `get_processing_status` endpoint (process.py lines
165-208): 404 when absent; otherwise report the row, with extracted
data only when the stored value is truthy and the status is
`completed` (the Python condition
`document.extracted_data and document.status == "completed"`).
A status string outside the `ProcessingStatus` enum makes the Python
constructor raise, surfaced as a 500. -/
def getProcessingStatus (docOpt : Option Doc) (document_id : ℕ) :
    Except ApiError ProcessResponse :=
  match docOpt with
  | none =>
    Except.error (ApiError.httpError 404
      ("Document with ID " ++ toString document_id ++ " not found"))
  | some d =>
    if ["pending", "processing", "completed", "failed"].contains d.status then
      let extracted : Option ExtractionResult :=
        match d.extracted_data with
        | some er => if er.isTruthy && d.status = "completed" then some er else none
        | none => none
      Except.ok
        { document_id := document_id
          status := d.status
          document_type := d.document_type
          extracted_data := extracted
          confidence_score := d.confidence_score
          processing_time := some (d.processing_time.getD 0)
          validation_errors := some (d.validation_errors.getD [])
          message := "Status: " ++ d.status }
    else
      Except.error (ApiError.httpError 500 ("Status check failed: " ++ d.status))

/-! ## Lifecycle step relation

Sequential interleaving of the public operations acting on one
document: upload, the guarded start of processing (endpoint guard plus
the task writing `processing`), the rest of the background task, and
deletion.  The status query performs no write and contributes no
step. -/

/-- Presence of the document row. -/
inductive DocState where
  | absent
  | present (d : Doc)
deriving DecidableEq

/-- One public operation acting on the document. -/
inductive Step : DocState → DocState → Prop where
  | upload (filename original_filename file_path : String) (file_size : ℕ)
      (extension : String) (now : ℕ) :
      Step DocState.absent
        (DocState.present
          (uploadedDocument filename original_filename file_path file_size extension now))
  | startProcessing (d : Doc) (h : d.status ≠ "processing") :
      Step (DocState.present d) (DocState.present { d with status := "processing" })
  | finishTask (d : Doc) (env : TaskEnv) (now : ℕ) (h : d.status = "processing") :
      Step (DocState.present d) (DocState.present (applyProcOutcome d env now).1)
  | deleteDoc (d : Doc) :
      Step (DocState.present d) DocState.absent

/-- States reachable from the empty store by the public operations. -/
def Reachable (s : DocState) : Prop :=
  Relation.ReflTransGen Step DocState.absent s

/-! ## Statistics (`documents.py` `get_statistics` and the
`ProcessingStatistics` schema of `schemas.py`) -/

/-- Round-half-to-even on rationals, the rounding of the Python builtin
`round` (numeric values are embedded as exact rationals; binary floating
point representation error is not modelled). -/
def roundHalfEven (q : ℚ) : ℤ :=
  let f : ℤ := ⌊q⌋
  let r : ℚ := q - f
  if r < 1 / 2 then f
  else if 1 / 2 < r then f + 1
  else if f % 2 = 0 then f else f + 1

/-- Python `round(q, digits)`. -/
def roundDigits (q : ℚ) (digits : ℕ) : ℚ :=
  (roundHalfEven (q * 10 ^ digits) : ℚ) / 10 ^ digits

/-- The keyword values computed by the body of `get_statistics`
(documents.py lines 154-210) before the response model is built. -/
structure StatsComputed where
  total_documents : ℕ
  processed_documents : ℕ
  failed_documents : ℕ
  pending_documents : ℕ
  average_processing_time : ℚ
  average_confidence_score : ℚ
  documents_by_type : List (String × ℕ)
  total_time_saved : ℚ
deriving DecidableEq

/-- Mean of a list of rationals with the `or 0.0` fallback of
`get_statistics`: SQL `AVG` over an empty row set is NULL, turned into
`0.0`. -/
def avgOrZero (l : List ℚ) : ℚ :=
  if l.isEmpty then 0 else l.sum / l.length

/-- The `GROUP BY document_type` counts over rows whose type is not
NULL, keyed in first-appearance order. -/
def documentsByType (docs : List Doc) : List (String × ℕ) :=
  ((docs.filterMap (fun d => d.document_type)).dedup).map
    (fun t => (t, (docs.filter (fun d => d.document_type = some t)).length))

/-- Embedding of the aggregation body of `get_statistics`
(documents.py lines 154-210): counts by status, averages over the
non-NULL values with 0.0 fallback, grouped type counts, and the time
saved estimate `completed * 5 / 60` hours, with the `round` calls of
the response construction. -/
def computeStatistics (docs : List Doc) : StatsComputed :=
  { total_documents := docs.length
    processed_documents := (docs.filter (fun d => d.status = "completed")).length
    failed_documents := (docs.filter (fun d => d.status = "failed")).length
    pending_documents := (docs.filter (fun d => d.status = "pending")).length
    average_processing_time :=
      roundDigits (avgOrZero (docs.filterMap (fun d => d.processing_time))) 2
    average_confidence_score :=
      roundDigits (avgOrZero (docs.filterMap (fun d => d.confidence_score))) 3
    documents_by_type := documentsByType docs
    total_time_saved :=
      roundDigits
        (((docs.filter (fun d => d.status = "completed")).length : ℚ) * 5 / 60) 2 }

/-- The keyword names passed to the `ProcessingStatistics` constructor
by `get_statistics` (documents.py lines 202-211). -/
def getStatisticsKwargNames : List String :=
  ["total_documents", "processed_documents", "failed_documents",
   "pending_documents", "average_processing_time", "average_confidence_score",
   "documents_by_type", "total_time_saved"]

/-- The fields of the `ProcessingStatistics` pydantic model
(schemas.py lines 163-171) that have no default and are therefore
required at construction. -/
def processingStatisticsRequiredFields : List String :=
  ["total_documents", "pending", "processing", "completed", "failed"]

/-- Pydantic model construction: succeeds only when every required
field name is among the passed keyword names (extra keywords are
ignored); otherwise it raises a ValidationError naming the missing
fields. -/
def pydanticConstruct (required passed : List String) : Except (List String) Unit :=
  let missing := required.filter (fun f => ¬ passed.contains f)
  if missing.isEmpty then Except.ok () else Except.error missing

/-- Embedding of the whole `/api/statistics` endpoint
(documents.py lines 149-218): compute the aggregation, then build the
`ProcessingStatistics` response; an exception during construction is
caught by the handler and surfaced as a 500. -/
def getStatisticsEndpoint (docs : List Doc) : Except ApiError StatsComputed :=
  let s := computeStatistics docs
  match pydanticConstruct processingStatisticsRequiredFields getStatisticsKwargNames with
  | Except.ok _ => Except.ok s
  | Except.error missing =>
    Except.error (ApiError.httpError 500
      ("Failed to get statistics: validation error, missing fields " ++
        joinWith ", " missing))

/-! ## Concrete example data

A successful extraction (the end-to-end scenario of the specification)
and the lifecycle trace upload, process, complete, re-process, fail,
used by several claims below.  Rationals are written with `mkRat`. -/

/-- The well-formed model reply of the end-to-end scenario: an invoice
with a `Total` and an `Invoice Date` field, aggregate confidence
`0.92`. -/
def erGood : ExtractionResult :=
  { document_type := some "invoice"
    confidence_score := some (mkRat 92 100)
    fields := some [
      { field_name := some "Total", value := some "100.00",
        confidence := some (mkRat 95 100), data_type := some "currency" },
      { field_name := some "Invoice Date", value := some "2024-01-01",
        confidence := some (mkRat 9 10), data_type := some "date" }]
    line_items := some []
    raw_text := some "Invoice Total 100.00" }

/-- Freshly uploaded document row. -/
def traceDoc0 : Doc :=
  uploadedDocument "a1.pdf" "invoice1.pdf" "./data/uploads/a1.pdf" 2048 ".pdf" 1

/-- The row after the first start of processing. -/
def traceDoc1 : Doc := { traceDoc0 with status := "processing" }

/-- Task environment of the first, successful attempt. -/
def traceEnvOk : TaskEnv :=
  TaskEnv.ran (Except.ok erGood) (mkRat 2 1) defaultConfidenceThreshold

/-- The row after the successful attempt: completed, with extracted
data. -/
def traceDoc2 : Doc := (applyProcOutcome traceDoc1 traceEnvOk 5).1

/-- The row after the second start of processing (permitted, since the
status `completed` is not `processing`). -/
def traceDoc3 : Doc := { traceDoc2 with status := "processing" }

/-- Task environment of the second attempt: the model reply is not
valid JSON, the pipeline raises while parsing. -/
def traceEnvFail : TaskEnv :=
  TaskEnv.ran (Except.error "Expecting value: line 1 column 1 (char 0)")
    (mkRat 3 1) defaultConfidenceThreshold

/-- The row after the failed second attempt. -/
def traceDoc4 : Doc := (applyProcOutcome traceDoc3 traceEnvFail 9).1

lemma step_to_traceDoc1 : Step (DocState.present traceDoc0) (DocState.present traceDoc1) :=
  Step.startProcessing traceDoc0 (by decide)

lemma step_to_traceDoc2 : Step (DocState.present traceDoc1) (DocState.present traceDoc2) :=
  Step.finishTask traceDoc1 traceEnvOk 5 (by decide)

lemma step_to_traceDoc3 : Step (DocState.present traceDoc2) (DocState.present traceDoc3) :=
  Step.startProcessing traceDoc2 (by decide)

lemma step_to_traceDoc4 : Step (DocState.present traceDoc3) (DocState.present traceDoc4) :=
  Step.finishTask traceDoc3 traceEnvFail 9 (by decide)

lemma reachable_traceDoc2 : Reachable (DocState.present traceDoc2) :=
  Relation.ReflTransGen.tail
    (Relation.ReflTransGen.tail
      (Relation.ReflTransGen.single
        (Step.upload "a1.pdf" "invoice1.pdf" "./data/uploads/a1.pdf" 2048 ".pdf" 1))
      step_to_traceDoc1)
    step_to_traceDoc2

lemma reachable_traceDoc4 : Reachable (DocState.present traceDoc4) :=
  Relation.ReflTransGen.tail
    (Relation.ReflTransGen.tail reachable_traceDoc2 step_to_traceDoc3)
    step_to_traceDoc4

/-! ## C3: confidence resolution -/

/-- C3.  For every extraction result without an aggregate
`confidence_score` key, the computed confidence is the arithmetic mean
of the field confidences with `0.5` substituted for a missing
confidence, and exactly `0.5` when the fields list is empty or absent;
when the key is present its value is used. -/
theorem c3_confidence_resolution (er : ExtractionResult) :
    (∀ c, er.confidence_score = some c → calculateConfidence er = c) ∧
    (er.confidence_score = none → er.fields = none ∨ er.fields = some [] →
      calculateConfidence er = 1 / 2) ∧
    (er.confidence_score = none → ∀ fs, er.fields = some fs → fs ≠ [] →
      calculateConfidence er =
        (fs.map (fun f => f.confidence.getD (1 / 2))).sum / fs.length) := by
  refine ⟨fun c hc => by simp [calculateConfidence, hc], fun h hf => ?_, fun h fs hf hne => ?_⟩
  · rcases hf with hf | hf <;> simp [calculateConfidence, h, hf]
  · have hlen : fs.length ≠ 0 := by simpa [List.length_eq_zero] using hne
    simp [calculateConfidence, h, hf, List.isEmpty_iff, hne, hlen]

/-- Witness for C3 at concrete inputs. -/
theorem c3_witness :
    calculateConfidence { confidence_score := some (mkRat 92 100) } = mkRat 92 100 ∧
    calculateConfidence {} = 1 / 2 ∧
    calculateConfidence
        { fields := some [{ field_name := some "a", confidence := some (mkRat 9 10) },
            { field_name := some "b" }] } =
      ((mkRat 9 10) + 1 / 2) / 2 := by
  refine ⟨(c3_confidence_resolution _).1 _ rfl, (c3_confidence_resolution _).2.1 rfl (Or.inl rfl), ?_⟩
  have h := (c3_confidence_resolution
      { fields := some [{ field_name := some "a", confidence := some (mkRat 9 10) },
          { field_name := some "b" }] }).2.2 rfl _ rfl (by simp)
  rw [h]
  norm_num

/-! ## C4: document-type resolution -/

/-- Extraction result whose field names are `inv` then `no`: the joined
lowercased names are the string `inv no`, which contains the keyword
`inv no`. -/
def c4ErInvNo : ExtractionResult :=
  { fields := some [{ field_name := some "inv" }, { field_name := some "no" }] }

/-- The same field-name set in the other order: the joined names are
`no inv`, which contains none of the keywords. -/
def c4ErNoInv : ExtractionResult :=
  { fields := some [{ field_name := some "no" }, { field_name := some "inv" }] }

/-- C4 counterexample.  Two extraction results without `document_type`
whose field-name lists are permutations of each other (the same
field-name set) are classified differently, because multi-word keywords
can match across the boundary of two adjacent names in the joined
string: `inv no` then matches the invoice keyword `inv no`, while
`no inv` matches nothing.  So classification is not a function of the
field-name set. -/
theorem c4_counterexample :
    c4ErInvNo.document_type = none ∧ c4ErNoInv.document_type = none ∧
    List.Perm (fieldNamesLower c4ErInvNo) (fieldNamesLower c4ErNoInv) ∧
    categorizeDocument c4ErInvNo = "invoice" ∧
    categorizeDocument c4ErNoInv = "other" := by decide

/-- The keyword fallback as the specification words it: first-match
priority over the concatenated (space-joined) lowercase field names,
invoice before receipt before purchase order before bill, else other.
Spec-side definition used to compare the code against the amended
claim. -/
def specKeywordCategory (joined : String) : String :=
  if strContains joined "invoice" || strContains joined "inv no" ||
      strContains joined "invoice number" then "invoice"
  else if strContains joined "receipt" || strContains joined "transaction" then "receipt"
  else if strContains joined "purchase order" || strContains joined "po number" then
    "purchase_order"
  else if strContains joined "bill" || strContains joined "billing" then "bill"
  else "other"

/-- C4 amended.  When the extraction result names a document type, that
value is returned verbatim; otherwise the result is the first-match
keyword category of the space-joined lowercased field-name sequence —
hence classification is deterministic in the field-name sequence (not
in the field-name set, by the counterexample). -/
theorem c4_categorization_amended (er : ExtractionResult) :
    (∀ t, er.document_type = some t → categorizeDocument er = t) ∧
    (er.document_type = none →
      categorizeDocument er = specKeywordCategory (joinedFieldNames er)) ∧
    (∀ er2, er.document_type = none → er2.document_type = none →
      fieldNamesLower er = fieldNamesLower er2 →
      categorizeDocument er = categorizeDocument er2) := by
  have key : er.document_type = none →
      categorizeDocument er = specKeywordCategory (joinedFieldNames er) := by
    intro h
    simp [categorizeDocument, specKeywordCategory, h, or_assoc]
  refine ⟨fun t ht => by simp [categorizeDocument, ht], key, fun er2 h h2 hnames => ?_⟩
  have key2 : categorizeDocument er2 = specKeywordCategory (joinedFieldNames er2) := by
    simp [categorizeDocument, specKeywordCategory, h2, or_assoc]
  rw [key h, key2, joinedFieldNames, joinedFieldNames, hnames]

/-- Witness for C4 at concrete inputs. -/
theorem c4_witness :
    categorizeDocument { document_type := some "statement" } = "statement" ∧
    categorizeDocument c4ErInvNo = specKeywordCategory (joinedFieldNames c4ErInvNo) :=
  ⟨(c4_categorization_amended _).1 _ rfl, (c4_categorization_amended _).2.1 rfl⟩

/-! ## C5: validation findings -/

/-- Extraction result with one below-threshold field whose
`field_name` key is absent. -/
def c5ErNameless : ExtractionResult :=
  { fields := some [{ confidence := some (mkRat 3 10) }] }

/-- C5 counterexample.  `c5ErNameless` has exactly one field, and that
field is below the default threshold, so the claim demands exactly one
`confidence` warning naming it; the code instead raises a `TypeError`
(`", ".join` applied to a list containing `None`) and produces no
findings list at all. -/
theorem c5_counterexample :
    ((c5ErNameless.fields.getD []).filter
        (fun f => f.confidence.getD 1 < defaultConfidenceThreshold)).length = 1 ∧
    validateData c5ErNameless "other" defaultConfidenceThreshold = none := by decide

lemma sequenceOptions_all_isSome (l : List (Option String))
    (h : ∀ x ∈ l, x.isSome = true) :
    sequenceOptions l = some (l.filterMap id) := by
  induction l with
  | nil => rfl
  | cons hd tl ih =>
    cases hd with
    | none => simpa using h none (List.mem_cons_self none tl)
    | some s =>
      simp [sequenceOptions, ih (fun x hx => h x (List.mem_cons_of_mem _ hx))]

lemma any_keys_iff (keys : List String) (fields : List ExtractedFieldJ) :
    (keys.any (fun k =>
        (fields.map (fun f => strToLower (f.field_name.getD ""))).contains k)) = true ↔
    ∃ f ∈ fields, strToLower (f.field_name.getD "") ∈ keys := by
  simp only [List.any_eq_true, List.elem_iff, List.mem_map]
  constructor
  · rintro ⟨k, hk, f, hf, hfk⟩
    exact ⟨f, hf, hfk ▸ hk⟩
  · rintro ⟨f, hf, hfk⟩
    exact ⟨_, hfk, f, hf, rfl⟩

lemma chunk_findings_eq (keys : List String) (fnd : Finding)
    (fields : List ExtractedFieldJ) :
    (if keys.any (fun k =>
        (fields.map (fun f => strToLower (f.field_name.getD ""))).contains k) then
      ([] : List Finding) else [fnd]) =
    (if ∀ f ∈ fields, strToLower (f.field_name.getD "") ∉ keys then [fnd] else []) := by
  by_cases hAll : ∀ f ∈ fields, strToLower (f.field_name.getD "") ∉ keys
  · have hany : (keys.any fun k =>
        (fields.map (fun f => strToLower (f.field_name.getD ""))).contains k) = false := by
      rw [Bool.eq_false_iff]
      intro hh
      rcases (any_keys_iff keys fields).mp hh with ⟨f, hf, hfk⟩
      exact hAll f hf hfk
    rw [hany, if_pos hAll]
    simp
  · have hex : ∃ f ∈ fields, strToLower (f.field_name.getD "") ∈ keys := by
      push_neg at hAll
      exact hAll
    have hany := (any_keys_iff keys fields).mpr hex
    rw [hany]
    simp [hAll]

lemma typeFindings_eq (fields : List ExtractedFieldJ) (dt : String) :
    typeFindings fields dt =
      (if dt ∈ (["invoice", "receipt", "bill"] : List String) ∧
          (∀ f ∈ fields, strToLower (f.field_name.getD "") ∉
            (["total", "amount", "total amount", "grand total"] : List String))
        then [⟨"total", "Total amount not found", "error"⟩] else [])
      ++
      (if dt ∈ (["invoice", "receipt", "bill"] : List String) ∧
          (∀ f ∈ fields, strToLower (f.field_name.getD "") ∉
            (["date", "invoice date", "receipt date"] : List String))
        then [⟨"date", "Date not found", "warning"⟩] else []) := by
  by_cases hdt : dt ∈ (["invoice", "receipt", "bill"] : List String)
  · have hc : (["invoice", "receipt", "bill"].contains dt) = true := List.elem_iff.mpr hdt
    simp only [typeFindings, hc, if_true]
    rw [chunk_findings_eq, chunk_findings_eq]
    simp [hdt]
  · have hc : (["invoice", "receipt", "bill"].contains dt) = false := by
      rw [Bool.eq_false_iff]
      intro hh
      exact hdt (List.elem_iff.mp hh)
    simp [typeFindings, hc, hdt]

/-- C5 amended.  For every extraction result in which each
below-threshold field carries a `field_name` (the counterexample shows
the code raises otherwise), the validation findings are exactly: an
`error` on `total` when the type is financial and no field name matches
a total keyword, a `warning` on `date` when the type is financial and
no field name matches a date keyword, and one `warning` on
`confidence` naming the below-threshold fields when at least one field
is below the threshold — and nothing else. -/
theorem c5_validation_amended (er : ExtractionResult) (document_type : String)
    (threshold : ℚ)
    (hnames : ∀ f ∈ (er.fields.getD []).filter
        (fun f => f.confidence.getD 1 < threshold), f.field_name.isSome = true) :
    validateData er document_type threshold =
      some (
        (if document_type ∈ (["invoice", "receipt", "bill"] : List String) ∧
            (∀ f ∈ er.fields.getD [],
              strToLower (f.field_name.getD "") ∉
                (["total", "amount", "total amount", "grand total"] : List String))
          then [⟨"total", "Total amount not found", "error"⟩] else [])
        ++
        (if document_type ∈ (["invoice", "receipt", "bill"] : List String) ∧
            (∀ f ∈ er.fields.getD [],
              strToLower (f.field_name.getD "") ∉
                (["date", "invoice date", "receipt date"] : List String))
          then [⟨"date", "Date not found", "warning"⟩] else [])
        ++
        (if (er.fields.getD []).filter (fun f => f.confidence.getD 1 < threshold) ≠ []
          then [⟨"confidence", "Low confidence in fields: " ++
              joinWith ", "
                (((er.fields.getD []).filter
                    (fun f => f.confidence.getD 1 < threshold)).filterMap
                  (fun f => f.field_name)), "warning"⟩]
          else [])) := by
  have hTF := typeFindings_eq (er.fields.getD []) document_type
  rcases hl : ((er.fields.getD []).filter (fun f => f.confidence.getD 1 < threshold)).map
      (fun f => f.field_name) with _ | ⟨o, rest⟩
  · have hlnil := List.map_eq_nil_iff.mp hl
    simp only [validateData, hl]
    rw [hTF]
    simp [hlnil]
  · have hlne : (er.fields.getD []).filter (fun f => f.confidence.getD 1 < threshold) ≠ [] := by
      intro hh
      rw [hh] at hl
      cases hl
    have hseq : sequenceOptions (o :: rest) = some
        (((er.fields.getD []).filter (fun f => f.confidence.getD 1 < threshold)).filterMap
          (fun f => f.field_name)) := by
      have h1 : ∀ x ∈ ((er.fields.getD []).filter
          (fun f => f.confidence.getD 1 < threshold)).map (fun f => f.field_name),
          x.isSome = true := by
        intro x hx
        rcases List.mem_map.mp hx with ⟨f, hf, hfx⟩
        exact hfx ▸ hnames f hf
      rw [← hl, sequenceOptions_all_isSome _ h1, List.filterMap_map]
      rfl
    simp only [validateData, hl, hseq]
    rw [hTF]
    simp [hlne]

/-- Witness for C5: a financial document with both required fields
present and one below-threshold named field yields exactly one
`confidence` warning naming it. -/
theorem c5_witness :
    validateData
        { fields := some [
            { field_name := some "Total", confidence := some (mkRat 95 100) },
            { field_name := some "Date", confidence := some (mkRat 5 10) }] }
        "invoice" defaultConfidenceThreshold =
      some [⟨"confidence", "Low confidence in fields: Date", "warning"⟩] := by
  have h := c5_validation_amended
    { fields := some [
        { field_name := some "Total", confidence := some (mkRat 95 100) },
        { field_name := some "Date", confidence := some (mkRat 5 10) }] }
    "invoice" defaultConfidenceThreshold (by decide)
  rw [h]
  decide

/-! ## C1: retry counter -/

/-- C1 counterexample.  A document in `processing` status is reachable;
when the task body raises an unexpected exception (the
`except Exception` recovery path of process.py lines 92-105), the
document is moved from `processing` to `failed` with its `retry_count`
unchanged — not incremented by one as the claim requires for every
failure path. -/
theorem c1_counterexample :
    Reachable (DocState.present traceDoc1) ∧
    traceDoc1.status = "processing" ∧
    (applyProcOutcome traceDoc1 (TaskEnv.raised "database connection lost") 7).1.status
      = "failed" ∧
    (applyProcOutcome traceDoc1 (TaskEnv.raised "database connection lost") 7).1.retry_count
      = traceDoc1.retry_count ∧
    ¬ ((applyProcOutcome traceDoc1 (TaskEnv.raised "database connection lost") 7).1.retry_count
      = traceDoc1.retry_count + 1) := by
  refine ⟨?_, by decide, by decide, by decide, by decide⟩
  exact Relation.ReflTransGen.tail
    (Relation.ReflTransGen.single
      (Step.upload "a1.pdf" "invoice1.pdf" "./data/uploads/a1.pdf" 2048 ".pdf" 1))
    step_to_traceDoc1

/-- C1 amended.  On the failure path in which the processor returns an
unsuccessful result dict, the task sets status `failed` and increments
`retry_count` by exactly one; on the exception-recovery path the task
sets status `failed` without touching `retry_count`; and no public
operation ever decreases `retry_count`. -/
theorem c1_retry_amended :
    (∀ (d : Doc) (ext : Except String ExtractionResult) (pt th : ℚ) (now : ℕ)
        (e : String) (pt2 : ℚ),
      processDocumentRun ext pt th = ProcResult.failure e pt2 →
        (applyProcOutcome d (TaskEnv.ran ext pt th) now).1.status = "failed" ∧
        (applyProcOutcome d (TaskEnv.ran ext pt th) now).1.retry_count =
          d.retry_count + 1) ∧
    (∀ (d : Doc) (e : String) (now : ℕ),
      (applyProcOutcome d (TaskEnv.raised e) now).1.status = "failed" ∧
      (applyProcOutcome d (TaskEnv.raised e) now).1.retry_count = d.retry_count) ∧
    (∀ s1 s2, Step s1 s2 → ∀ d1 d2, s1 = DocState.present d1 →
      s2 = DocState.present d2 → d1.retry_count ≤ d2.retry_count) := by
  refine ⟨fun d ext pt th now e pt2 h => by simp [applyProcOutcome, h],
    fun d e now => by simp [applyProcOutcome], ?_⟩
  intro s1 s2 hstep
  cases hstep with
  | upload fn ofn fp sz ex now =>
    intro d1 d2 h1 h2
    cases h1
  | startProcessing d h =>
    intro d1 d2 h1 h2
    injection h1 with h1
    injection h2 with h2
    subst h1
    subst h2
    exact le_refl _
  | finishTask d env now h =>
    intro d1 d2 h1 h2
    injection h1 with h1
    injection h2 with h2
    subst h1
    subst h2
    cases env with
    | ran ext pt th =>
      rcases hr : processDocumentRun ext pt th with r | ⟨e, pt2⟩ <;>
        simp [applyProcOutcome, hr]
    | raised e => simp [applyProcOutcome]
  | deleteDoc d =>
    intro d1 d2 h1 h2
    cases h2

/-- Witness for C1 at concrete inputs: a failed processor run
increments the counter, the exception path keeps it, and one concrete
step does not decrease it. -/
theorem c1_witness :
    ((applyProcOutcome traceDoc3 traceEnvFail 9).1.status = "failed" ∧
      (applyProcOutcome traceDoc3 traceEnvFail 9).1.retry_count =
        traceDoc3.retry_count + 1) ∧
    ((applyProcOutcome traceDoc1 (TaskEnv.raised "boom") 4).1.status = "failed" ∧
      (applyProcOutcome traceDoc1 (TaskEnv.raised "boom") 4).1.retry_count =
        traceDoc1.retry_count) ∧
    traceDoc0.retry_count ≤ traceDoc1.retry_count :=
  ⟨c1_retry_amended.1 traceDoc3 (Except.error "Expecting value: line 1 column 1 (char 0)")
      (mkRat 3 1) defaultConfidenceThreshold 9 "Expecting value: line 1 column 1 (char 0)"
      (mkRat 3 1) rfl,
    c1_retry_amended.2.1 traceDoc1 "boom" 4,
    c1_retry_amended.2.2 _ _ step_to_traceDoc1 traceDoc0 traceDoc1 rfl rfl⟩

/-! ## C2: extracted data presence -/

/-- C2 counterexample.  A reachable state in which the document is
`failed` yet still carries non-null `extracted_data`: a completed
document is re-processed (the guard only blocks `processing`), the
second attempt fails, and the failure path never clears the previously
persisted extraction. -/
theorem c2_counterexample :
    Reachable (DocState.present traceDoc4) ∧
    traceDoc4.status = "failed" ∧
    traceDoc4.extracted_data = some erGood := by
  exact ⟨reachable_traceDoc4, by decide, by decide⟩

/-- C2 amended.  In every reachable state a `completed` document has
non-null `extracted_data`; a failing attempt sets `error_message` and
leaves `extracted_data` exactly as it was (null when no earlier attempt
completed, but the stale value survives a failed re-processing, by the
counterexample). -/
theorem c2_extracted_data_amended :
    (∀ s, Reachable s → ∀ d, s = DocState.present d → d.status = "completed" →
      d.extracted_data.isSome = true) ∧
    (∀ (d : Doc) (env : TaskEnv) (now : ℕ),
      (applyProcOutcome d env now).1.status = "failed" →
        (applyProcOutcome d env now).1.extracted_data = d.extracted_data ∧
        (applyProcOutcome d env now).1.error_message.isSome = true) := by
  constructor
  · intro s h
    induction h with
    | refl => intro d hd; cases hd
    | tail hab hbc ih =>
      intro d hd hc
      cases hbc with
      | upload fn ofn fp sz ex now =>
        injection hd with hd
        subst hd
        simp [uploadedDocument] at hc
      | startProcessing d0 h0 =>
        injection hd with hd
        subst hd
        simp at hc
      | finishTask d0 env now h0 =>
        injection hd with hd
        subst hd
        cases env with
        | ran ext pt th =>
          rcases hr : processDocumentRun ext pt th with r | ⟨e, pt2⟩
          · simp [applyProcOutcome, hr]
          · simp [applyProcOutcome, hr] at hc
        | raised e => simp [applyProcOutcome] at hc
      | deleteDoc d0 => cases hd
  · intro d env now
    cases env with
    | ran ext pt th =>
      rcases hr : processDocumentRun ext pt th with r | ⟨e, pt2⟩ <;>
        simp [applyProcOutcome, hr]
    | raised e => simp [applyProcOutcome]

/-- Witness for C2 at concrete inputs: the completed trace state has
extracted data, and the concrete failing attempt leaves the stored
extraction unchanged. -/
theorem c2_witness :
    traceDoc2.extracted_data.isSome = true ∧
    traceDoc4.extracted_data = traceDoc3.extracted_data ∧
    traceDoc4.error_message.isSome = true :=
  ⟨c2_extracted_data_amended.1 _ reachable_traceDoc2 traceDoc2 rfl (by decide),
    (c2_extracted_data_amended.2 traceDoc3 traceEnvFail 9 (by decide)).1,
    (c2_extracted_data_amended.2 traceDoc3 traceEnvFail 9 (by decide)).2⟩

/-! ## C6: conflict guard -/

/-- C6.  Invoking the start-processing endpoint on a document whose
status is `processing` rejects with the 400 already-being-processed
error (the conflict condition of the specification), leaves the stored
row exactly as it was, and launches no background task. -/
theorem c6_conflict_guard (d : Doc) (document_id : ℕ) (h : d.status = "processing") :
    processDocumentEndpoint (some d) document_id =
      ⟨Except.error (ApiError.httpError 400 "Document is already being processed"),
        some d, false⟩ := by
  simp [processDocumentEndpoint, h]

/-- Witness for C6 at a concrete processing document. -/
theorem c6_witness :
    processDocumentEndpoint (some traceDoc1) 1 =
      ⟨Except.error (ApiError.httpError 400 "Document is already being processed"),
        some traceDoc1, false⟩ :=
  c6_conflict_guard traceDoc1 1 (by decide)

/-! ## C7: status query -/

/-- A completed document whose stored `extracted_data` is the empty
dict: the Python truthiness test treats it as absent. -/
def c7Doc : Doc := { traceDoc0 with status := "completed", extracted_data := some {} }

/-- C7 counterexample.  For a completed document whose stored
`extracted_data` is a non-null but empty mapping, the status query
reports the extracted data as absent instead of returning the stored
value: the condition `document.extracted_data and ...` is false for an
empty dict. -/
theorem c7_counterexample :
    c7Doc.status = "completed" ∧
    c7Doc.extracted_data = some {} ∧
    (getProcessingStatus (some c7Doc) 3).toOption.map (fun r => r.extracted_data) =
      some none := by
  refine ⟨by decide, by decide, ?_⟩
  decide

/-- C7 amended.  The status query reports extracted data as absent
whenever the status is not `completed`, even if a non-null value is
stored; when the status is `completed` it returns the stored value
provided that value is a non-empty (truthy) mapping — an empty stored
mapping is also reported as absent, by the counterexample. -/
theorem c7_status_query_amended (d : Doc) (document_id : ℕ) :
    (∀ resp, getProcessingStatus (some d) document_id = Except.ok resp →
      d.status ≠ "completed" → resp.extracted_data = none) ∧
    (d.status = "completed" → ∀ er, d.extracted_data = some er →
      er.isTruthy = true →
      (getProcessingStatus (some d) document_id).toOption.map
        (fun r => r.extracted_data) = some (some er)) := by
  constructor
  · intro resp hresp hne
    by_cases hv : (["pending", "processing", "completed", "failed"] : List String).contains
        d.status = true
    · rw [getProcessingStatus] at hresp
      rw [if_pos hv] at hresp
      injection hresp with hresp
      subst hresp
      cases hd : d.extracted_data with
      | none => simp [hd]
      | some er =>
        simp only [hd]
        have : (er.isTruthy && d.status = "completed") = false := by
          simp [hne]
        simp [this]
    · rw [getProcessingStatus] at hresp
      rw [if_neg (by simpa using hv)] at hresp
      cases hresp
  · intro hc er her htr
    have hv : (["pending", "processing", "completed", "failed"] : List String).contains
        d.status = true := by
      simp [hc]
    rw [getProcessingStatus, if_pos hv, her]
    simp [htr, hc, Except.toOption]

/-- Witness for C7 at concrete inputs: the failed stale document
reports no extracted data, the completed one returns the stored
extraction. -/
theorem c7_witness :
    ((getProcessingStatus (some traceDoc4) 4).toOption.map
        (fun r => r.extracted_data) = some none) ∧
    ((getProcessingStatus (some traceDoc2) 2).toOption.map
        (fun r => r.extracted_data) = some (some erGood)) := by
  constructor
  · have h4 : getProcessingStatus (some traceDoc4) 4 =
        Except.ok
          { document_id := 4
            status := "failed"
            document_type := some "invoice"
            extracted_data := none
            confidence_score := some (mkRat 92 100)
            processing_time := some (mkRat 2 1)
            validation_errors := some []
            message := "Status: failed" } := by decide
    have := (c7_status_query_amended traceDoc4 4).1 _ h4 (by decide)
    rw [h4]
    simp [this, Except.toOption]
  · exact (c7_status_query_amended traceDoc2 2).2 (by decide) erGood (by decide) (by decide)

/-! ## C8: vision reply parsing -/

/-- C8.  The reply parsing strips a fenced code block wrapper before
JSON parsing: whenever the external parse of the stripped, trimmed text
yields a value, the gateway returns exactly that value, and whenever
the remaining text is not valid JSON it fails with the controlled
format error rather than succeeding or crashing differently.  The
concrete equations show the delimiter stripping on a wrapped reply, a
bare-fence reply, and an unwrapped reply. -/
theorem c8_parse_policy {α : Type} (loads : String → Option α) (content : String) :
    (∀ j, loads (strStrip (stripCodeFences content)) = some j →
      parseVisionContent loads content = Except.ok j) ∧
    (loads (strStrip (stripCodeFences content)) = none →
      parseVisionContent loads content = Except.error VisionParseError.jsonDecodeError) ∧
    stripCodeFences ("```json\n\x7b\"document_type\": \"invoice\"\x7d\n```") =
      "\n\x7b\"document_type\": \"invoice\"\x7d\n" ∧
    strStrip ("\n\x7b\"document_type\": \"invoice\"\x7d\n") =
      "\x7b\"document_type\": \"invoice\"\x7d" ∧
    stripCodeFences ("```\n\x7b\"a\": 1\x7d\n```") = "\n\x7b\"a\": 1\x7d\n" ∧
    stripCodeFences ("\x7b\"a\": 1\x7d") = "\x7b\"a\": 1\x7d" := by
  refine ⟨fun j h => ?_, fun h => ?_, by decide, by decide, by decide, by decide⟩
  · simp [parseVisionContent, h]
  · simp [parseVisionContent, h]

/-- External JSON parser stub for the C8 witness: recognizes exactly
the stripped scenario reply. -/
def c8Loads : String → Option ExtractionResult := fun s =>
  if s = "\x7b\"document_type\": \"invoice\"\x7d" then
    some { document_type := some "invoice" }
  else none

/-- Witness for C8: the wrapped reply parses to the recognized value,
an unparsable reply yields the format error. -/
theorem c8_witness :
    parseVisionContent c8Loads ("```json\n\x7b\"document_type\": \"invoice\"\x7d\n```") =
      Except.ok { document_type := some "invoice" } ∧
    parseVisionContent c8Loads ("this is not json") =
      Except.error VisionParseError.jsonDecodeError :=
  ⟨(c8_parse_policy c8Loads _).1 _ (by decide),
    (c8_parse_policy c8Loads _).2.1 (by decide)⟩


/-! ## C9: statistics -/

/-- C9.  The aggregation body of the statistics operation computes all
zero counts, 0.0 averages, an empty by-type mapping and 0.0 time saved
on the empty document set, exactly as the claim states — but the
endpoint never returns it: the `ProcessingStatistics` response schema
declares required fields `pending`, `processing`, `completed`, `failed`
that the endpoint body does not pass, so the response construction
raises a validation error and the endpoint answers 500 for every
document set, including the empty one. -/
theorem c9_statistics_bug :
    computeStatistics [] =
      { total_documents := 0, processed_documents := 0, failed_documents := 0,
        pending_documents := 0, average_processing_time := 0,
        average_confidence_score := 0, documents_by_type := [], total_time_saved := 0 } ∧
    pydanticConstruct processingStatisticsRequiredFields getStatisticsKwargNames =
      Except.error ["pending", "processing", "completed", "failed"] ∧
    (∀ docs : List Doc, ∃ msg,
      getStatisticsEndpoint docs = Except.error (ApiError.httpError 500 msg)) := by
  refine ⟨?_, by decide, fun docs => ?_⟩
  · norm_num [computeStatistics, avgOrZero, documentsByType, roundDigits, roundHalfEven]
  · have hmiss : pydanticConstruct processingStatisticsRequiredFields getStatisticsKwargNames =
        Except.error ["pending", "processing", "completed", "failed"] := by decide
    exact ⟨_, by rw [getStatisticsEndpoint, hmiss]⟩

/-! ## C10: re-processing of completed documents -/

/-- C10.  The start guard rejects only the `processing` status: any
document in another status — completed included — is accepted, a
background task is launched, and the document re-enters `processing`;
a subsequent failing attempt leaves it `failed` while the previously
persisted `extracted_data` remains stored. -/
theorem c10_reprocess_allowed :
    (∀ (d : Doc) (document_id : ℕ), d.status ≠ "processing" →
      processDocumentEndpoint (some d) document_id =
        ⟨Except.ok
          { document_id := document_id
            status := "processing"
            document_type := none
            extracted_data := none
            confidence_score := none
            processing_time := some 0
            validation_errors := none
            message := "Document processing started. Check status for results." },
          some d, true⟩) ∧
    (∀ d : Doc, d.status ≠ "processing" →
      Step (DocState.present d) (DocState.present { d with status := "processing" })) ∧
    (∀ (d : Doc) (er : ExtractionResult) (e : String) (pt th : ℚ) (now : ℕ),
      d.status = "completed" → d.extracted_data = some er →
      ((applyProcOutcome { d with status := "processing" }
          (TaskEnv.ran (Except.error e) pt th) now).1.status = "failed" ∧
        (applyProcOutcome { d with status := "processing" }
          (TaskEnv.ran (Except.error e) pt th) now).1.extracted_data = some er)) := by
  refine ⟨fun d document_id h => by simp [processDocumentEndpoint, h],
    fun d h => Step.startProcessing d h,
    fun d er e pt th now hc her => ?_⟩
  constructor
  · simp [applyProcOutcome, processDocumentRun]
  · simp [applyProcOutcome, processDocumentRun, her]

/-- Witness for C10: the completed trace document is accepted for
re-processing, re-enters `processing`, and the concrete failing second
attempt leaves it failed with the stale extraction stored. -/
theorem c10_witness :
    processDocumentEndpoint (some traceDoc2) 2 =
      ⟨Except.ok
        { document_id := 2
          status := "processing"
          document_type := none
          extracted_data := none
          confidence_score := none
          processing_time := some 0
          validation_errors := none
          message := "Document processing started. Check status for results." },
        some traceDoc2, true⟩ ∧
    Step (DocState.present traceDoc2) (DocState.present traceDoc3) ∧
    ((applyProcOutcome traceDoc3 traceEnvFail 9).1.status = "failed" ∧
      (applyProcOutcome traceDoc3 traceEnvFail 9).1.extracted_data = some erGood) :=
  ⟨c10_reprocess_allowed.1 traceDoc2 2 (by decide),
    c10_reprocess_allowed.2.1 traceDoc2 (by decide),
    c10_reprocess_allowed.2.2 traceDoc2 erGood
      "Expecting value: line 1 column 1 (char 0)" (mkRat 3 1)
      defaultConfidenceThreshold 9 (by decide) (by decide)⟩

end DocProc
